import Mathlib

/-!
Verification development for the PyalgoKite live market-data subscription
broker.  The definitions below are a shallow embedding of the Python source:

* `handle_subscribe_upstox_market_data` embeds the socket handler of the same
  name in `src/app.py` (lines 231-314).  Module-level globals
  (`upstox_ws_thread`, `upstox_subscribed_instrument_keys`,
  `upstox_ws_shutdown_event`) become fields of `AppState`; external calls and
  emitted socket events become an explicit `List Effect` trace.
* `handle_unsubscribe_upstox_market_data` embeds the handler at
  `src/app.py` lines 316-347.
* `process_upstox_feed` embeds the normalizer at `src/app.py` lines 196-229.
  Provider payload numbers are modeled as integers (only presence / zero /
  nonzero matters for the properties considered); a field of the Python tick
  dict is `none` when the key is absent and `some v` when present with
  value `v` (where `v : Option Int`, `none` modeling Python `None`).
* The `TokenManager` namespace embeds `src/token_manager.py`.
* `ccStep` / `ccRun` re-express the subscribe handler as a sequence of atomic
  actions on the shared globals, to reason about interleavings of two
  concurrent handler invocations (the handler holds no lock, so the socket
  server may interleave two invocations at any of these points).
-/

/-- A background websocket thread.  `alive` mirrors `Thread.is_alive()`;
`stuck` is the environment's oracle for whether the thread fails to stop
within the `join(timeout=5.0)` window once signaled. -/
structure WsThread where
  tid : Nat
  alive : Bool
  stuck : Bool
deriving DecidableEq, Repr

/-- The module-level globals of `src/app.py` that the two handlers mutate:
`upstox_ws_thread`, `upstox_ws_shutdown_event` (identified by an id) and
`upstox_subscribed_instrument_keys`.  `nextId` allocates fresh ids for
newly created events/threads. -/
structure AppState where
  wsThread : Option WsThread
  shutdownEvent : Option Nat
  subscribed : Finset String
  nextId : Nat
deriving DecidableEq

/-- Environment facts the handler consults: whether
`upstox_service.get_configuration_api_client()` returns a client, whether
`get_market_data_feed_authorize_url` returns a url, and whether a freshly
started thread will later refuse to stop in time. -/
structure Env where
  clientAvailable : Bool
  feedUrlAvailable : Bool
  newThreadStuck : Bool
deriving DecidableEq, Repr

/-- Observable actions of one handler invocation: signaling the shutdown
event, joining the old thread (with whether the join timed out), the
warning log on timeout, socket emits, upstream credential/url calls, and
thread start.  `forceKill` is the thread-termination primitive that the
source never invokes; it is included so its absence is statable. -/
inductive Effect where
  | signalShutdown (eid : Nat)
  | joinThread (tid : Nat) (timedOut : Bool)
  | logWarn
  | emitError (tag : String)
  | emitStatus (tag : String)
  | getApiClient
  | getFeedUrl
  | startThread (tid : Nat)
  | forceKill (tid : Nat)
deriving DecidableEq, Repr

/-- The payload of a subscribe/unsubscribe socket event:
`data.get('instrument_keys', [])` is either a list or fails the
`isinstance(..., list)` check. -/
inductive SubInput where
  | keys (ks : List String)
  | invalid
deriving DecidableEq

/-- Lines 244-256 of `src/app.py`: if a thread exists and is alive, set the
shutdown event (if one exists), `join(timeout=5.0)`, warn if it is still
alive, and clear the thread reference; the event reference is cleared in
every case (line 256).  The join times out iff there was no event to signal
or the thread is stuck. -/
def shutdownExisting (s : AppState) : AppState × List Effect :=
  match s.wsThread with
  | some t =>
    if t.alive then
      let sigEffs := match s.shutdownEvent with
        | some e => [Effect.signalShutdown e]
        | none => []
      let timedOut := s.shutdownEvent.isNone || t.stuck
      let warnEffs := if timedOut then [Effect.logWarn] else []
      ({ s with wsThread := none, shutdownEvent := none },
        sigEffs ++ [Effect.joinThread t.tid timedOut] ++ warnEffs)
    else
      ({ s with shutdownEvent := none }, [])
  | none => ({ s with shutdownEvent := none }, [])

/-- `handle_subscribe_upstox_market_data` (`src/app.py` lines 231-314).
After the isinstance check (line 237) it unconditionally tears down any
running thread (lines 244-256), replaces the subscribed set (lines 259-260),
returns with a status emit if the new set is empty (lines 263-267), fails
with an error emit if the api client (lines 270-274) or feed url (lines
276-281) is unavailable, and otherwise creates a fresh shutdown event
(line 291) and starts a fresh thread (lines 309-310), emitting a status
(lines 312-314). -/
def handle_subscribe_upstox_market_data (env : Env) (s : AppState)
    (inp : SubInput) : AppState × List Effect :=
  match inp with
  | .invalid => (s, [Effect.emitError "invalid_keys"])
  | .keys ks =>
    let p := shutdownExisting s
    let s2 := { p.1 with subscribed := ks.toFinset }
    if s2.subscribed = ∅ then
      (s2, p.2 ++ [Effect.emitStatus "connection_closed"])
    else if env.clientAvailable = false then
      (s2, p.2 ++ [Effect.getApiClient, Effect.emitError "auth_failed"])
    else if env.feedUrlAvailable = false then
      (s2, p.2 ++ [Effect.getApiClient, Effect.getFeedUrl,
        Effect.emitError "feed_url_failed"])
    else
      let tid := s2.nextId
      ({ s2 with wsThread := some ⟨tid, true, env.newThreadStuck⟩,
                 shutdownEvent := some tid, nextId := tid + 1 },
        p.2 ++ [Effect.getApiClient, Effect.getFeedUrl,
          Effect.startThread tid, Effect.emitStatus "subscribing"])

/-- `handle_unsubscribe_upstox_market_data` (`src/app.py` lines 316-347).
It removes each requested key present in the current set (lines 331-335);
if any removal happened it re-invokes the subscribe handler on the remaining
set (line 341), otherwise it only emits the current status (lines 345-347). -/
def handle_unsubscribe_upstox_market_data (env : Env) (s : AppState)
    (inp : SubInput) : AppState × List Effect :=
  match inp with
  | .invalid => (s, [Effect.emitError "invalid_unsub_keys"])
  | .keys ks =>
    let madeChange := ks.any (fun k => decide (k ∈ s.subscribed))
    if madeChange then
      handle_subscribe_upstox_market_data env s
        (.keys ((s.subscribed \ ks.toFinset).sort (· ≤ ·)))
    else
      (s, [Effect.emitStatus "no_change"])

/-- The `ltpc` block of a provider feed message (`feed_data.ff.marketFF.ltpc`).
Each field is `none` when the payload carries no value (Python `None`). -/
structure LtpcData where
  ltp : Option Int
  cp : Option Int
  ch : Option Int
  chp : Option Int
  ltt : Option Int
deriving DecidableEq, Repr

/-- The `ohlc` block of a provider feed message. -/
structure OhlcData where
  op : Option Int
  hi : Option Int
  lo : Option Int
  cl : Option Int
deriving DecidableEq, Repr

/-- One entry of `feed_response.feeds`: the `ltpc`/`ohlc` blocks are `none`
when the corresponding protobuf sub-message is falsy. -/
structure FeedData where
  ltpc : Option LtpcData
  ohlc : Option OhlcData
deriving DecidableEq, Repr

/-- The tick dict built by `process_upstox_feed`.  A field is `none` when the
key is absent from the dict, `some v` when present with value `v` (and `v`
itself is `none` when the dict holds Python `None`). -/
structure Tick where
  instrument_key : String
  timestamp : Int
  last_price : Option (Option Int)
  change : Option (Option Int)
  percentage_change : Option (Option Int)
  last_traded_time : Option (Option Int)
  ohlc : Option OhlcData
deriving DecidableEq, Repr

/-- Python truthiness of an optional number: `None` and `0` are falsy. -/
def pyTruthy : Option Int → Bool
  | none => false
  | some v => v != 0

/-- `process_upstox_feed` (`src/app.py` lines 196-229) for a single entry of
`feed_response.feeds`.  `now` is `int(time.time() * 1000)` (line 205).  When
the `ltpc` block is present (line 208) the handler sets `last_price`,
`change`, `percentage_change` and `last_traded_time` (lines 210-213); the
`change` value is `ltpc.ch` when that is not `None`, else `ltp - cp` when
both are truthy, else `0` (line 211).  The timestamp is overwritten with
`ltt * 1000` when `ltt` is truthy (lines 214-215).  When the `ohlc` block is
present (line 217) the nested ohlc dict is copied (lines 218-224). -/
def process_upstox_feed (now : Int) (key : String) (fd : FeedData) : Tick :=
  let base : Tick := ⟨key, now, none, none, none, none, none⟩
  let t1 := match fd.ltpc with
    | none => base
    | some l =>
      let chVal : Int := match l.ch with
        | some c => c
        | none =>
          if pyTruthy l.ltp && pyTruthy l.cp then l.ltp.getD 0 - l.cp.getD 0
          else 0
      { base with
          last_price := some l.ltp
          change := some (some chVal)
          percentage_change := some l.chp
          last_traded_time := some l.ltt
          timestamp := if pyTruthy l.ltt then l.ltt.getD 0 * 1000 else now }
  match fd.ohlc with
  | none => t1
  | some o => { t1 with ohlc := some o }

namespace TokenManager

/-- The mutable fields of the `TokenManager` singleton
(`src/token_manager.py`).  `objId` models Python object identity, so that
"every construction returns the same instance" is statable. -/
structure TMState where
  objId : Nat
  access_token : Option String
  token_expiry : Option Int
deriving DecidableEq, Repr

/-- The class-level `_instance` slot. -/
structure TMGlobal where
  inst : Option TMState
deriving DecidableEq, Repr

/-- Parsed contents of `upstox_token.json`.  `access_token = none` models a
file whose dict lacks the `access_token` key (the `KeyError` is caught by
the surrounding `except`). -/
structure TokenFileData where
  expires_at : Option Int
  access_token : Option String
deriving DecidableEq, Repr

/-- Observable actions of `get_token`: reading the token file, the three
log statements, and the interactive login that the method never performs
(included so its absence is statable). -/
inductive TMEffect where
  | readFile
  | logWarnExpired
  | logErrorRead
  | logErrorNeedLogin
  | interactiveLogin
deriving DecidableEq, Repr

/-- Line 42 of `src/token_manager.py`: the in-memory token is served iff
`self._access_token` is truthy (a nonempty string), `self._token_expiry` is
set (datetimes are always truthy) and `datetime.now()` is strictly before
the expiry. -/
def memoryValid (now : Int) (s : TMState) : Bool :=
  match s.access_token, s.token_expiry with
  | some tok, some e => tok != "" && now < e
  | _, _ => false

/-- `TokenManager.get_token` (`src/token_manager.py` lines 33-64).  `file` is
the state of `upstox_token.json`: `none` when the file does not exist,
`some none` when reading or JSON-parsing raises, `some (some d)` when it
parses to `d`.  Returns the token (or `None`), the updated singleton state,
and the effect trace. -/
def get_token (now : Int) (s : TMState)
    (file : Option (Option TokenFileData)) :
    Option String × TMState × List TMEffect :=
  if memoryValid now s then (s.access_token, s, [])
  else
    match file with
    | none => (none, s, [TMEffect.logErrorNeedLogin])
    | some none => (none, s, [TMEffect.readFile, TMEffect.logErrorRead,
        TMEffect.logErrorNeedLogin])
    | some (some d) =>
      match d.expires_at with
      | none => (none, s, [TMEffect.readFile, TMEffect.logWarnExpired,
          TMEffect.logErrorNeedLogin])
      | some e =>
        if now < e then
          match d.access_token with
          | some tok =>
            (some tok, { s with access_token := some tok, token_expiry := some e },
              [TMEffect.readFile])
          | none => (none, s, [TMEffect.readFile, TMEffect.logErrorRead,
              TMEffect.logErrorNeedLogin])
        else
          (none, s, [TMEffect.readFile, TMEffect.logWarnExpired,
            TMEffect.logErrorNeedLogin])

/-- `TokenManager.__new__` (lines 25-31): creates the singleton with `None`
token fields on first call, returns the stored instance afterwards. -/
def tm_new (g : TMGlobal) : TMGlobal × TMState :=
  match g.inst with
  | none =>
    let s : TMState := ⟨0, none, none⟩
    ({ inst := some s }, s)
  | some s => (g, s)

/-- `TokenManager.__init__` (lines 21-23): unconditionally resets the token
and expiry fields of the instance (object identity is preserved). -/
def tm_init (s : TMState) : TMState :=
  { s with access_token := none, token_expiry := none }

/-- `TokenManager()`: Python runs `__new__` and then always runs `__init__`
on the returned instance (it is an instance of the class); the class-level
`_instance` slot keeps pointing at that same, now reset, object. -/
def tm_construct (g : TMGlobal) : TMGlobal × TMState :=
  let p := tm_new g
  let s := tm_init p.2
  ({ inst := some s }, s)

/-- `TokenManager.set_token` (lines 66-76): stores the token in memory with
expiry `now + expires_in - 300` (a five-minute buffer). -/
def set_token (s : TMState) (tok : String) (expires_in now : Int) : TMState :=
  { s with access_token := some tok,
           token_expiry := some (now + (expires_in - 300)) }

end TokenManager

/-- Shared globals plus the history needed to talk about lost updates:
`started` records every thread id ever started, `joined` every thread id
that some invocation signaled and joined before discarding it. -/
structure CCState where
  thread : Option WsThread
  event : Option Nat
  subscribed : Finset String
  nextId : Nat
  started : List Nat
  joined : List Nat
deriving DecidableEq

/-- One atomic action of `handle_subscribe_upstox_market_data` for a call
with key list `ks`, at program point `pc`.  The handler holds no lock, so a
concurrent invocation may run between any two of these points.  The points
correspond to the source line groups of `src/app.py`:
`0` = teardown of a live thread (lines 244-256);
`1` = replacing the subscribed set (lines 259-260);
`2` = fetching the api client and feed url (lines 270-281, no shared-state
mutation; the empty-set early return of lines 263-267 and the failure
returns are guarded here by reading the shared set, which stays nonempty in
the schedules considered);
`3` = creating the fresh shutdown event (line 291);
`4` = starting the fresh thread (lines 309-310). -/
def ccStep (ks : List String) (pc : Nat) (st : CCState) : CCState :=
  match pc with
  | 0 =>
    match st.thread with
    | some t =>
      if t.alive then
        { st with thread := none, event := none,
                  joined := st.joined ++ [t.tid] }
      else { st with event := none }
    | none => { st with event := none }
  | 1 => { st with subscribed := ks.toFinset }
  | 2 => st
  | 3 =>
    if st.subscribed = ∅ then st
    else { st with event := some st.nextId }
  | 4 =>
    if st.subscribed = ∅ then st
    else { st with thread := some ⟨st.nextId, true, false⟩,
                   started := st.started ++ [st.nextId],
                   nextId := st.nextId + 1 }
  | _ => st

/-- Run two concurrent invocations of the subscribe handler, with key lists
`kA` and `kB`, under a schedule: `true` runs the next pending step of call
A, `false` of call B. -/
def ccRun (kA kB : List String) (sched : List Bool) : CCState :=
  (sched.foldl
    (fun acc isA =>
      if isA then (ccStep kA acc.2.1 acc.1, acc.2.1 + 1, acc.2.2)
      else (ccStep kB acc.2.2 acc.1, acc.2.1, acc.2.2 + 1))
    (⟨none, none, ∅, 0, [], []⟩, 0, 0)).1

/-- Threads that were started, never signaled-and-joined, and are no longer
referenced by the shared thread slot: their shutdown event and handle were
overwritten, so no later invocation can ever stop or join them. -/
def ccOrphans (st : CCState) : List Nat :=
  st.started.filter fun i =>
    decide (i ∉ st.joined) && (st.thread.map WsThread.tid != some i)

/-- The schedule that runs call A fully before call B. -/
def serialAB : List Bool :=
  [true, true, true, true, true, false, false, false, false, false]

/-- The schedule that runs call B fully before call A. -/
def serialBA : List Bool :=
  [false, false, false, false, false, true, true, true, true, true]

/-- An interleaved schedule: A runs through its teardown and set-replacement
steps, then B runs to completion, then A creates its event and thread. -/
def interleavedAB : List Bool :=
  [true, true, true, false, false, false, false, false, true, true]

/-! ### Helper lemmas about the teardown block and the subscribe handler -/

lemma shutdownExisting_effects_shape (s : AppState) :
    ∀ x ∈ (shutdownExisting s).2, (∃ e, x = Effect.signalShutdown e) ∨
      (∃ tid b, x = Effect.joinThread tid b) ∨ x = Effect.logWarn := by
  intro x hx
  unfold shutdownExisting at hx
  split at hx
  · split at hx
    · simp only [List.mem_append, List.mem_singleton] at hx
      rcases hx with (hx | hx) | hx
      · split at hx
        · simp only [List.mem_singleton] at hx
          exact Or.inl ⟨_, hx⟩
        · simp at hx
      · exact Or.inr (Or.inl ⟨_, _, hx⟩)
      · split at hx
        · simp only [List.mem_singleton] at hx
          exact Or.inr (Or.inr hx)
        · simp at hx
    · simp at hx
  · simp at hx

lemma shutdownExisting_no_start (s : AppState) (tid : Nat) :
    Effect.startThread tid ∉ (shutdownExisting s).2 := by
  intro h
  rcases shutdownExisting_effects_shape s _ h with ⟨e, he⟩ | ⟨t, b, ht⟩ | hw
  · simp at he
  · simp at ht
  · simp at hw

lemma shutdownExisting_no_client (s : AppState) :
    Effect.getApiClient ∉ (shutdownExisting s).2 := by
  intro h
  rcases shutdownExisting_effects_shape s _ h with ⟨e, he⟩ | ⟨t, b, ht⟩ | hw
  · simp at he
  · simp at ht
  · simp at hw

lemma shutdownExisting_no_error (s : AppState) (tag : String) :
    Effect.emitError tag ∉ (shutdownExisting s).2 := by
  intro h
  rcases shutdownExisting_effects_shape s _ h with ⟨e, he⟩ | ⟨t, b, ht⟩ | hw
  · simp at he
  · simp at ht
  · simp at hw

lemma shutdownExisting_no_kill (s : AppState) (tid : Nat) :
    Effect.forceKill tid ∉ (shutdownExisting s).2 := by
  intro h
  rcases shutdownExisting_effects_shape s _ h with ⟨e, he⟩ | ⟨t, b, ht⟩ | hw
  · simp at he
  · simp at ht
  · simp at hw

lemma shutdownExisting_thread (s : AppState) :
    (shutdownExisting s).1.wsThread = none ∨
      ∃ t, (shutdownExisting s).1.wsThread = some t ∧ t.alive = false := by
  unfold shutdownExisting
  rcases hws : s.wsThread with _ | t
  · simp [hws]
  · cases ha : t.alive
    · exact Or.inr ⟨t, by simp [ha], ha⟩
    · simp [ha]

lemma shutdownExisting_nextId (s : AppState) :
    (shutdownExisting s).1.nextId = s.nextId := by
  unfold shutdownExisting
  split
  · split <;> rfl
  · rfl

/-- Exact output of the teardown block when a live thread and a shutdown
event are present. -/
lemma shutdownExisting_alive (s : AppState) (t : WsThread) (e : Nat)
    (ht : s.wsThread = some t) (ha : t.alive = true)
    (he : s.shutdownEvent = some e) :
    shutdownExisting s =
      ({ s with wsThread := none, shutdownEvent := none },
        [Effect.signalShutdown e, Effect.joinThread t.tid t.stuck] ++
          (if t.stuck then [Effect.logWarn] else [])) := by
  unfold shutdownExisting
  rw [ht]
  simp [ha, he]

/-- Whatever branch the subscribe handler takes, the resulting subscribed set
is the requested one (`src/app.py` lines 259-260, never modified later). -/
lemma subscribe_subscribed (env : Env) (s : AppState) (ks : List String) :
    (handle_subscribe_upstox_market_data env s (.keys ks)).1.subscribed
      = ks.toFinset := by
  simp only [handle_subscribe_upstox_market_data]
  split
  · rfl
  · split
    · rfl
    · split
      · rfl
      · rfl

/-- Every teardown effect is part of the handler's trace, whatever branch is
taken afterwards. -/
lemma mem_subscribe_of_mem_shutdown (env : Env) (s : AppState)
    (ks : List String) (x : Effect) (hx : x ∈ (shutdownExisting s).2) :
    x ∈ (handle_subscribe_upstox_market_data env s (.keys ks)).2 := by
  simp only [handle_subscribe_upstox_market_data]
  split
  · exact List.mem_append_left _ hx
  · split
    · exact List.mem_append_left _ hx
    · split
      · exact List.mem_append_left _ hx
      · exact List.mem_append_left _ hx

/-- For every nonempty requested set the handler reaches line 270 and calls
`upstox_service.get_configuration_api_client()`. -/
lemma subscribe_client_called (env : Env) (s : AppState) (ks : List String)
    (hk : ks.toFinset ≠ ∅) :
    Effect.getApiClient ∈
      (handle_subscribe_upstox_market_data env s (.keys ks)).2 := by
  simp only [handle_subscribe_upstox_market_data]
  split
  · next h => exact absurd h hk
  · split
    · simp
    · split <;> simp

/-! ### Claim theorems -/

/-- C1, counterexample.  Requesting subscription to the same set twice is not
free of upstream calls the second time: starting from the idle initial state,
the second identical request signals the shutdown event of the connection the
first request started, fetches a fresh api client, and starts a fresh thread
(`src/app.py` never computes a diff; lines 244-310 always reconnect). -/
theorem resubscribe_same_set_issues_upstream_calls :
    Effect.signalShutdown 0 ∈
      (handle_subscribe_upstox_market_data ⟨true, true, false⟩
        (handle_subscribe_upstox_market_data ⟨true, true, false⟩
          ⟨none, none, ∅, 0⟩ (.keys ["X"])).1 (.keys ["X"])).2 ∧
    Effect.getApiClient ∈
      (handle_subscribe_upstox_market_data ⟨true, true, false⟩
        (handle_subscribe_upstox_market_data ⟨true, true, false⟩
          ⟨none, none, ∅, 0⟩ (.keys ["X"])).1 (.keys ["X"])).2 ∧
    Effect.startThread 1 ∈
      (handle_subscribe_upstox_market_data ⟨true, true, false⟩
        (handle_subscribe_upstox_market_data ⟨true, true, false⟩
          ⟨none, none, ∅, 0⟩ (.keys ["X"])).1 (.keys ["X"])).2 := by
  decide

/-- C1, amended.  Requesting subscription to the same set twice in succession
is idempotent on the subscription state (the subscribed set is unchanged by
the second request), but the second request is not free of upstream work: for
every nonempty set it tears down the running connection and again calls the
upstream api-client acquisition (and reconnects) instead of producing an
empty diff. -/
theorem resubscribe_same_set_state_idempotent_but_reconnects (env : Env)
    (s : AppState) (ks : List String) :
    (handle_subscribe_upstox_market_data env
        (handle_subscribe_upstox_market_data env s (.keys ks)).1
        (.keys ks)).1.subscribed =
      (handle_subscribe_upstox_market_data env s (.keys ks)).1.subscribed ∧
    (ks.toFinset ≠ ∅ → Effect.getApiClient ∈
      (handle_subscribe_upstox_market_data env
        (handle_subscribe_upstox_market_data env s (.keys ks)).1
        (.keys ks)).2) :=
  ⟨by rw [subscribe_subscribed, subscribe_subscribed],
   fun hk => subscribe_client_called env _ ks hk⟩

/-- C1, witness for the amended theorem at a concrete input. -/
theorem resubscribe_same_set_witness :
    Effect.getApiClient ∈
      (handle_subscribe_upstox_market_data ⟨true, true, false⟩
        (handle_subscribe_upstox_market_data ⟨true, true, false⟩
          ⟨none, none, ∅, 5⟩ (.keys ["Y"])).1 (.keys ["Y"])).2 :=
  (resubscribe_same_set_state_idempotent_but_reconnects ⟨true, true, false⟩
    ⟨none, none, ∅, 5⟩ ["Y"]).2 (by decide)

/-- C2, counterexample.  A reconciliation whose diff only adds instruments
(connected with key X, requesting X and Y) still tears down the live
connection: the shutdown event is set and the background thread joined
(`src/app.py` lines 244-256 run on every request, there is no incremental
subscribe path). -/
theorem add_only_reconcile_tears_down_connection :
    Effect.signalShutdown 0 ∈
      (handle_subscribe_upstox_market_data ⟨true, true, false⟩
        ⟨some ⟨0, true, false⟩, some 0, {"X"}, 1⟩ (.keys ["X", "Y"])).2 ∧
    Effect.joinThread 0 false ∈
      (handle_subscribe_upstox_market_data ⟨true, true, false⟩
        ⟨some ⟨0, true, false⟩, some 0, {"X"}, 1⟩ (.keys ["X", "Y"])).2 := by
  decide

/-- C2, amended.  Every valid reconciliation request that arrives while the
connection is live tears the connection down, whatever the requested set:
the shutdown signal is set and the background thread is joined before any
new subscription work happens. -/
theorem live_reconcile_always_tears_down (env : Env) (s : AppState)
    (t : WsThread) (e : Nat) (ks : List String) (ht : s.wsThread = some t)
    (ha : t.alive = true) (he : s.shutdownEvent = some e) :
    Effect.signalShutdown e ∈
      (handle_subscribe_upstox_market_data env s (.keys ks)).2 ∧
    Effect.joinThread t.tid t.stuck ∈
      (handle_subscribe_upstox_market_data env s (.keys ks)).2 := by
  have hshut := shutdownExisting_alive s t e ht ha he
  constructor <;> apply mem_subscribe_of_mem_shutdown <;> rw [hshut] <;> simp

/-- C2, witness for the amended theorem at a concrete input. -/
theorem live_reconcile_always_tears_down_witness :
    Effect.signalShutdown 7 ∈
      (handle_subscribe_upstox_market_data ⟨true, true, false⟩
        ⟨some ⟨3, true, false⟩, some 7, {"X"}, 8⟩ (.keys ["X", "Y"])).2 ∧
    Effect.joinThread 3 false ∈
      (handle_subscribe_upstox_market_data ⟨true, true, false⟩
        ⟨some ⟨3, true, false⟩, some 7, {"X"}, 8⟩ (.keys ["X", "Y"])).2 :=
  live_reconcile_always_tears_down ⟨true, true, false⟩
    ⟨some ⟨3, true, false⟩, some 7, {"X"}, 8⟩ ⟨3, true, false⟩ 7
    ["X", "Y"] rfl rfl rfl

/-- C4: an empty desired set is accepted (no error event), the running
thread is signaled and joined, a status event is emitted, no new thread is
started, and the handler leaves the channel disconnected with an empty
subscribed set (`src/app.py` lines 236-267). -/
theorem empty_set_reconcile_disconnects (env : Env) (s : AppState)
    (t : WsThread) (e : Nat) (ht : s.wsThread = some t)
    (ha : t.alive = true) (he : s.shutdownEvent = some e) :
    Effect.signalShutdown e ∈
      (handle_subscribe_upstox_market_data env s (.keys [])).2 ∧
    Effect.joinThread t.tid t.stuck ∈
      (handle_subscribe_upstox_market_data env s (.keys [])).2 ∧
    Effect.emitStatus "connection_closed" ∈
      (handle_subscribe_upstox_market_data env s (.keys [])).2 ∧
    (∀ tag, Effect.emitError tag ∉
      (handle_subscribe_upstox_market_data env s (.keys [])).2) ∧
    (∀ tid, Effect.startThread tid ∉
      (handle_subscribe_upstox_market_data env s (.keys [])).2) ∧
    (handle_subscribe_upstox_market_data env s (.keys [])).1.wsThread
      = none ∧
    (handle_subscribe_upstox_market_data env s (.keys [])).1.subscribed
      = ∅ := by
  have hshut := shutdownExisting_alive s t e ht ha he
  simp only [handle_subscribe_upstox_market_data, hshut]
  cases hst : t.stuck <;> simp [hst]

/-- C4, witness at a concrete connected state. -/
theorem empty_set_reconcile_disconnects_witness :
    Effect.signalShutdown 0 ∈
      (handle_subscribe_upstox_market_data ⟨true, true, false⟩
        ⟨some ⟨0, true, false⟩, some 0, {"X"}, 1⟩ (.keys [])).2 ∧
    Effect.joinThread 0 false ∈
      (handle_subscribe_upstox_market_data ⟨true, true, false⟩
        ⟨some ⟨0, true, false⟩, some 0, {"X"}, 1⟩ (.keys [])).2 ∧
    Effect.emitStatus "connection_closed" ∈
      (handle_subscribe_upstox_market_data ⟨true, true, false⟩
        ⟨some ⟨0, true, false⟩, some 0, {"X"}, 1⟩ (.keys [])).2 ∧
    (∀ tag, Effect.emitError tag ∉
      (handle_subscribe_upstox_market_data ⟨true, true, false⟩
        ⟨some ⟨0, true, false⟩, some 0, {"X"}, 1⟩ (.keys [])).2) ∧
    (∀ tid, Effect.startThread tid ∉
      (handle_subscribe_upstox_market_data ⟨true, true, false⟩
        ⟨some ⟨0, true, false⟩, some 0, {"X"}, 1⟩ (.keys [])).2) ∧
    (handle_subscribe_upstox_market_data ⟨true, true, false⟩
        ⟨some ⟨0, true, false⟩, some 0, {"X"}, 1⟩ (.keys [])).1.wsThread
      = none ∧
    (handle_subscribe_upstox_market_data ⟨true, true, false⟩
        ⟨some ⟨0, true, false⟩, some 0, {"X"}, 1⟩ (.keys [])).1.subscribed
      = ∅ :=
  empty_set_reconcile_disconnects ⟨true, true, false⟩
    ⟨some ⟨0, true, false⟩, some 0, {"X"}, 1⟩ ⟨0, true, false⟩ 0 rfl rfl rfl

/-- C6: tearing down a superseded connection whose thread does not stop
within the join timeout is non-fatal: the timed-out join is followed by the
leak-risk warning, the handler never force-terminates the old thread, and it
still clears the old handle and starts a fresh thread for a nonempty
requested set (`src/app.py` lines 245-256 and 309-310). -/
theorem shutdown_timeout_nonfatal (env : Env) (s : AppState) (t : WsThread)
    (e : Nat) (ks : List String) (ht : s.wsThread = some t)
    (ha : t.alive = true) (hstuck : t.stuck = true)
    (he : s.shutdownEvent = some e) (hc : env.clientAvailable = true)
    (hf : env.feedUrlAvailable = true) (hk : ks.toFinset ≠ ∅) :
    Effect.joinThread t.tid true ∈
      (handle_subscribe_upstox_market_data env s (.keys ks)).2 ∧
    Effect.logWarn ∈
      (handle_subscribe_upstox_market_data env s (.keys ks)).2 ∧
    Effect.startThread s.nextId ∈
      (handle_subscribe_upstox_market_data env s (.keys ks)).2 ∧
    (handle_subscribe_upstox_market_data env s (.keys ks)).1.wsThread
      = some ⟨s.nextId, true, env.newThreadStuck⟩ ∧
    (∀ tid, Effect.forceKill tid ∉
      (handle_subscribe_upstox_market_data env s (.keys ks)).2) := by
  have hshut := shutdownExisting_alive s t e ht ha he
  simp only [handle_subscribe_upstox_market_data, hshut, hstuck]
  simp [hk, hc, hf]

/-- C6, witness at a concrete state whose thread refuses to stop. -/
theorem shutdown_timeout_nonfatal_witness :
    Effect.joinThread 2 true ∈
      (handle_subscribe_upstox_market_data ⟨true, true, false⟩
        ⟨some ⟨2, true, true⟩, some 2, {"X"}, 3⟩ (.keys ["Y"])).2 ∧
    Effect.logWarn ∈
      (handle_subscribe_upstox_market_data ⟨true, true, false⟩
        ⟨some ⟨2, true, true⟩, some 2, {"X"}, 3⟩ (.keys ["Y"])).2 ∧
    Effect.startThread 3 ∈
      (handle_subscribe_upstox_market_data ⟨true, true, false⟩
        ⟨some ⟨2, true, true⟩, some 2, {"X"}, 3⟩ (.keys ["Y"])).2 ∧
    (handle_subscribe_upstox_market_data ⟨true, true, false⟩
        ⟨some ⟨2, true, true⟩, some 2, {"X"}, 3⟩ (.keys ["Y"])).1.wsThread
      = some ⟨3, true, false⟩ ∧
    (∀ tid, Effect.forceKill tid ∉
      (handle_subscribe_upstox_market_data ⟨true, true, false⟩
        ⟨some ⟨2, true, true⟩, some 2, {"X"}, 3⟩ (.keys ["Y"])).2) :=
  shutdown_timeout_nonfatal ⟨true, true, false⟩
    ⟨some ⟨2, true, true⟩, some 2, {"X"}, 3⟩ ⟨2, true, true⟩ 2 ["Y"]
    rfl rfl rfl rfl rfl rfl (by decide)

/-- C7: when the api client (the credential gate) is unavailable and the
requested set is nonempty, the handler fails fast: it emits the
authentication error, starts no thread, makes exactly one credential-gate
call (no retry), and leaves the channel with no running thread
(`src/app.py` lines 269-274). -/
theorem credential_unavailable_fails_fast (env : Env) (s : AppState)
    (ks : List String) (hc : env.clientAvailable = false)
    (hk : ks.toFinset ≠ ∅) :
    Effect.emitError "auth_failed" ∈
      (handle_subscribe_upstox_market_data env s (.keys ks)).2 ∧
    (∀ tid, Effect.startThread tid ∉
      (handle_subscribe_upstox_market_data env s (.keys ks)).2) ∧
    List.count Effect.getApiClient
      (handle_subscribe_upstox_market_data env s (.keys ks)).2 = 1 ∧
    ((handle_subscribe_upstox_market_data env s (.keys ks)).1.wsThread
        = none ∨
      ∃ t, (handle_subscribe_upstox_market_data env s
          (.keys ks)).1.wsThread = some t ∧ t.alive = false) := by
  have heq : handle_subscribe_upstox_market_data env s (.keys ks) =
      ({ (shutdownExisting s).1 with subscribed := ks.toFinset },
        (shutdownExisting s).2 ++
          [Effect.getApiClient, Effect.emitError "auth_failed"]) := by
    simp only [handle_subscribe_upstox_market_data]
    rw [if_neg hk, if_pos hc]
  rw [heq]
  refine ⟨by simp, ?_, ?_, ?_⟩
  · intro tid h
    rcases List.mem_append.mp h with h | h
    · exact shutdownExisting_no_start s tid h
    · simp at h
  · rw [List.count_append]
    rw [List.count_eq_zero.mpr (shutdownExisting_no_client s)]
    rfl
  · exact shutdownExisting_thread s

/-- C7, witness at a concrete connected state with no credential. -/
theorem credential_unavailable_fails_fast_witness :
    Effect.emitError "auth_failed" ∈
      (handle_subscribe_upstox_market_data ⟨false, true, false⟩
        ⟨some ⟨0, true, false⟩, some 0, {"X"}, 1⟩ (.keys ["Y"])).2 ∧
    (∀ tid, Effect.startThread tid ∉
      (handle_subscribe_upstox_market_data ⟨false, true, false⟩
        ⟨some ⟨0, true, false⟩, some 0, {"X"}, 1⟩ (.keys ["Y"])).2) ∧
    List.count Effect.getApiClient
      (handle_subscribe_upstox_market_data ⟨false, true, false⟩
        ⟨some ⟨0, true, false⟩, some 0, {"X"}, 1⟩ (.keys ["Y"])).2 = 1 ∧
    ((handle_subscribe_upstox_market_data ⟨false, true, false⟩
        ⟨some ⟨0, true, false⟩, some 0, {"X"}, 1⟩ (.keys ["Y"])).1.wsThread
        = none ∨
      ∃ t, (handle_subscribe_upstox_market_data ⟨false, true, false⟩
        ⟨some ⟨0, true, false⟩, some 0, {"X"}, 1⟩
          (.keys ["Y"])).1.wsThread = some t ∧ t.alive = false) :=
  credential_unavailable_fails_fast ⟨false, true, false⟩
    ⟨some ⟨0, true, false⟩, some 0, {"X"}, 1⟩ ["Y"] rfl (by decide)

/-- C10: an unsubscribe request whose keys are all disjoint from the current
subscribed set changes nothing: the state (subscribed set, thread handle and
shutdown event) is returned unchanged and the only effect is the current
status emit (`src/app.py` lines 329-347). -/
theorem disjoint_unsubscribe_noop (env : Env) (s : AppState)
    (ks : List String) (hdisj : ∀ k ∈ ks, k ∉ s.subscribed) :
    handle_unsubscribe_upstox_market_data env s (.keys ks) =
      (s, [Effect.emitStatus "no_change"]) := by
  have hmc : (ks.any fun k => decide (k ∈ s.subscribed)) = false := by
    simp only [List.any_eq_false]
    intro k hk
    simpa using hdisj k hk
  simp [handle_unsubscribe_upstox_market_data, hmc]

/-- C10, witness: unsubscribing Y while only X is subscribed. -/
theorem disjoint_unsubscribe_noop_witness :
    handle_unsubscribe_upstox_market_data ⟨true, true, false⟩
        ⟨some ⟨0, true, false⟩, some 0, {"X"}, 1⟩ (.keys ["Y"]) =
      (⟨some ⟨0, true, false⟩, some 0, {"X"}, 1⟩,
        [Effect.emitStatus "no_change"]) :=
  disjoint_unsubscribe_noop ⟨true, true, false⟩
    ⟨some ⟨0, true, false⟩, some 0, {"X"}, 1⟩ ["Y"] (by decide)

/-- C3, counterexample.  The handler holds no lock, so two concurrent
reconcile invocations may interleave between its atomic actions.  Under the
interleaving `interleavedAB` of calls with sets X and Y, thread 0 (started
by call B) ends up started but never signaled-and-joined and no longer
referenced — a lost update: no later call can ever stop it.  Under either
serialized order no thread is ever lost, so this outcome witnesses that
unlocked concurrent reconcile calls do not serialize. -/
theorem unlocked_interleaving_orphans_thread :
    ccOrphans (ccRun ["X"] ["Y"] interleavedAB) = [0] ∧
    ccOrphans (ccRun ["X"] ["Y"] serialAB) = [] ∧
    ccOrphans (ccRun ["X"] ["Y"] serialBA) = [] ∧
    (ccRun ["X"] ["Y"] interleavedAB).thread = some ⟨1, true, false⟩ := by
  decide

/-- C3, amended.  The per-channel state is mutated without any lock, so
concurrent reconcile calls are not guaranteed to serialize (see the orphaned
thread of the counterexample).  When two reconcile calls do execute
serially, the final desired set equals the set of the last-applied call and
no started thread is lost. -/
theorem serial_reconcile_last_write_wins (kA kB : List String)
    (hA : kA.toFinset ≠ ∅) (hB : kB.toFinset ≠ ∅) :
    ccOrphans (ccRun kA kB serialAB) = [] ∧
    (ccRun kA kB serialAB).subscribed = kB.toFinset ∧
    ccOrphans (ccRun kA kB serialBA) = [] ∧
    (ccRun kA kB serialBA).subscribed = kA.toFinset := by
  simp [ccRun, serialAB, serialBA, ccStep, ccOrphans, hA, hB]

/-- C3, witness for the amended theorem at concrete key lists. -/
theorem serial_reconcile_last_write_wins_witness :
    ccOrphans (ccRun ["X"] ["Y"] serialAB) = [] ∧
    (ccRun ["X"] ["Y"] serialAB).subscribed = ["Y"].toFinset ∧
    ccOrphans (ccRun ["X"] ["Y"] serialBA) = [] ∧
    (ccRun ["X"] ["Y"] serialBA).subscribed = ["X"].toFinset :=
  serial_reconcile_last_write_wins ["X"] ["Y"] (by decide) (by decide)

/-- C5, counterexample.  The normalizer does not omit the change field when
change data is absent: a feed whose ltpc block carries only a last price
(no ch, no cp) yields a tick whose change field is populated with 0, and
that tick's change field is identical to the one produced by a feed with a
genuine zero change — a listener cannot distinguish absent change data from
a zero change (`src/app.py` line 211 defaults to 0). -/
theorem tick_change_field_defaults_to_zero :
    (process_upstox_feed 1000 "K"
      ⟨some ⟨some 100, none, none, none, none⟩, none⟩).change
        = some (some 0) ∧
    (process_upstox_feed 1000 "K"
      ⟨some ⟨some 100, none, none, none, none⟩, none⟩).change
        = (process_upstox_feed 1000 "K"
            ⟨some ⟨some 100, some 100, some 0, none, none⟩, none⟩).change := by
  decide

/-- C5, amended.  Fields of a wholly absent ltpc or ohlc block are omitted
from the tick, but within a present ltpc block the change field is always
populated, defaulting to 0 whenever ch is absent and ltp and cp are not both
truthy — so for that field a listener cannot distinguish absent data from a
zero value. -/
theorem feed_normalization_omits_absent_blocks_but_defaults_change
    (now : Int) (key : String) (fd : FeedData) :
    (fd.ltpc = none →
      (process_upstox_feed now key fd).last_price = none ∧
      (process_upstox_feed now key fd).change = none ∧
      (process_upstox_feed now key fd).percentage_change = none ∧
      (process_upstox_feed now key fd).last_traded_time = none) ∧
    (fd.ohlc = none → (process_upstox_feed now key fd).ohlc = none) ∧
    (∀ l, fd.ltpc = some l → l.ch = none →
      (pyTruthy l.ltp && pyTruthy l.cp) = false →
      (process_upstox_feed now key fd).change = some (some 0)) := by
  rcases fd with ⟨ltpc, ohlc⟩
  refine ⟨?_, ?_, ?_⟩
  · intro h
    subst h
    rcases ohlc with _ | o <;> simp [process_upstox_feed]
  · intro h
    subst h
    rcases ltpc with _ | l <;> simp [process_upstox_feed]
  · intro l hl hch htr
    subst hl
    rcases ohlc with _ | o <;>
      simp [process_upstox_feed, hch, htr]

/-- C5, witness for the amended theorem at a concrete feed. -/
theorem feed_normalization_omission_witness :
    (process_upstox_feed 1000 "K" ⟨none, none⟩).last_price = none ∧
    (process_upstox_feed 1000 "K" ⟨none, none⟩).change = none ∧
    (process_upstox_feed 1000 "K" ⟨none, none⟩).percentage_change = none ∧
    (process_upstox_feed 1000 "K" ⟨none, none⟩).last_traded_time = none :=
  (feed_normalization_omits_absent_blocks_but_defaults_change
    1000 "K" ⟨none, none⟩).1 rfl

/-- When the in-memory check of line 42 passes, the stored expiry is strictly
after `now`. -/
lemma memoryValid_spec (now : Int) (s : TokenManager.TMState)
    (h : TokenManager.memoryValid now s = true) :
    ∃ tok e, s.access_token = some tok ∧ s.token_expiry = some e ∧
      now < e := by
  unfold TokenManager.memoryValid at h
  split at h
  · next tok e heq1 heq2 =>
    simp only [Bool.and_eq_true, decide_eq_true_eq] at h
    exact ⟨tok, e, heq1, heq2, h.2⟩
  · simp at h

/-- C8: `get_token` never performs an interactive login, and whenever it
returns a token the expiry stored alongside it (in memory, or freshly loaded
from the file) is strictly later than the current time; in every other case
it returns `None` (`src/token_manager.py` lines 33-64). -/
theorem get_token_expiry_strictly_future (now : Int)
    (s : TokenManager.TMState)
    (file : Option (Option TokenManager.TokenFileData)) (r : Option String)
    (s' : TokenManager.TMState) (effs : List TokenManager.TMEffect)
    (h : TokenManager.get_token now s file = (r, s', effs)) :
    TokenManager.TMEffect.interactiveLogin ∉ effs ∧
    (∀ tok, r = some tok → ∃ e, s'.token_expiry = some e ∧ now < e) := by
  by_cases hmem : TokenManager.memoryValid now s = true
  · obtain ⟨tok, e, htok, hexp, hlt⟩ := memoryValid_spec now s hmem
    simp [TokenManager.get_token, hmem, Prod.mk.injEq] at h
    obtain ⟨hr, hs, heffs⟩ := h
    subst hr hs heffs
    exact ⟨by simp, fun tok2 _ => ⟨e, hexp, hlt⟩⟩
  · rcases file with _ | (_ | ⟨ea, ta⟩)
    · simp [TokenManager.get_token, hmem, Prod.mk.injEq] at h
      obtain ⟨hr, hs, heffs⟩ := h
      subst hr hs heffs
      exact ⟨by simp, fun tok2 hc => by simp at hc⟩
    · simp [TokenManager.get_token, hmem, Prod.mk.injEq] at h
      obtain ⟨hr, hs, heffs⟩ := h
      subst hr hs heffs
      exact ⟨by simp, fun tok2 hc => by simp at hc⟩
    · rcases ea with _ | e
      · simp [TokenManager.get_token, hmem, Prod.mk.injEq] at h
        obtain ⟨hr, hs, heffs⟩ := h
        subst hr hs heffs
        exact ⟨by simp, fun tok2 hc => by simp at hc⟩
      · by_cases hlt : now < e
        · rcases ta with _ | tok
          · simp [TokenManager.get_token, hmem, hlt, Prod.mk.injEq] at h
            obtain ⟨hr, hs, heffs⟩ := h
            subst hr hs heffs
            exact ⟨by simp, fun tok2 hc => by simp at hc⟩
          · simp [TokenManager.get_token, hmem, hlt, Prod.mk.injEq] at h
            obtain ⟨hr, hs, heffs⟩ := h
            subst hr hs heffs
            exact ⟨by simp, fun tok2 _ => ⟨e, rfl, hlt⟩⟩
        · simp [TokenManager.get_token, hmem, hlt, Prod.mk.injEq] at h
          obtain ⟨hr, hs, heffs⟩ := h
          subst hr hs heffs
          exact ⟨by simp, fun tok2 hc => by simp at hc⟩

/-- C8, witness: a valid in-memory token is served with its future expiry. -/
theorem get_token_expiry_witness :
    TokenManager.TMEffect.interactiveLogin ∉
      ([] : List TokenManager.TMEffect) ∧
    ∃ e, (⟨0, some "t", some 10⟩ :
        TokenManager.TMState).token_expiry = some e ∧ (0 : Int) < e :=
  ⟨(get_token_expiry_strictly_future 0 ⟨0, some "t", some 10⟩ none
      (some "t") ⟨0, some "t", some 10⟩ [] rfl).1,
   (get_token_expiry_strictly_future 0 ⟨0, some "t", some 10⟩ none
      (some "t") ⟨0, some "t", some 10⟩ [] rfl).2 "t" rfl⟩

/-- C9: `TokenManager()` always hands back the one singleton instance
(object identity — `objId` — is preserved, and the class slot points at the
returned instance), but `__init__` re-runs on every construction: after a
token has been stored with `set_token`, any later `TokenManager()` call
resets the in-memory token and expiry to `None`, so `get_token` no longer
serves the stored token from memory and, with no token file, returns `None`
(`src/token_manager.py` lines 19-31). -/
theorem token_manager_construct_resets_memory (g : TokenManager.TMGlobal)
    (tok : String) (ein now now2 : Int) (htok : tok ≠ "")
    (hein : 300 < ein) :
    (TokenManager.tm_construct g).1.inst
        = some (TokenManager.tm_construct g).2 ∧
    (TokenManager.get_token now
        (TokenManager.set_token (TokenManager.tm_construct g).2 tok ein now)
        none).1 = some tok ∧
    (TokenManager.tm_construct
        ⟨some (TokenManager.set_token (TokenManager.tm_construct g).2
          tok ein now)⟩).2.objId = (TokenManager.tm_construct g).2.objId ∧
    (TokenManager.tm_construct
        ⟨some (TokenManager.set_token (TokenManager.tm_construct g).2
          tok ein now)⟩).2.access_token = none ∧
    (TokenManager.tm_construct
        ⟨some (TokenManager.set_token (TokenManager.tm_construct g).2
          tok ein now)⟩).2.token_expiry = none ∧
    (TokenManager.get_token now2
        (TokenManager.tm_construct
          ⟨some (TokenManager.set_token (TokenManager.tm_construct g).2
            tok ein now)⟩).2 none).1 = none := by
  have hmv : TokenManager.memoryValid now
      (TokenManager.set_token (TokenManager.tm_construct g).2 tok ein now)
        = true := by
    simp [TokenManager.memoryValid, TokenManager.set_token, bne, htok]
    omega
  rcases g with ⟨_ | s0⟩ <;>
    simp [TokenManager.tm_construct, TokenManager.tm_new,
      TokenManager.tm_init, TokenManager.set_token, TokenManager.get_token,
      TokenManager.memoryValid, hmv, htok, hein]

/-- C9, witness at a concrete fresh global and token. -/
theorem token_manager_construct_resets_memory_witness :
    (TokenManager.tm_construct ⟨none⟩).1.inst
        = some (TokenManager.tm_construct ⟨none⟩).2 ∧
    (TokenManager.get_token 0
        (TokenManager.set_token (TokenManager.tm_construct ⟨none⟩).2
          "t" 86400 0) none).1 = some "t" ∧
    (TokenManager.tm_construct
        ⟨some (TokenManager.set_token (TokenManager.tm_construct ⟨none⟩).2
          "t" 86400 0)⟩).2.objId
      = (TokenManager.tm_construct ⟨none⟩).2.objId ∧
    (TokenManager.tm_construct
        ⟨some (TokenManager.set_token (TokenManager.tm_construct ⟨none⟩).2
          "t" 86400 0)⟩).2.access_token = none ∧
    (TokenManager.tm_construct
        ⟨some (TokenManager.set_token (TokenManager.tm_construct ⟨none⟩).2
          "t" 86400 0)⟩).2.token_expiry = none ∧
    (TokenManager.get_token 5
        (TokenManager.tm_construct
          ⟨some (TokenManager.set_token (TokenManager.tm_construct ⟨none⟩).2
            "t" 86400 0)⟩).2 none).1 = none :=
  token_manager_construct_resets_memory ⟨none⟩ "t" 86400 0 5
    (by decide) (by decide)
